import Mathlib

/-!
Verification of the Caudena transaction-checker CLI (`check_transaction.py`).

The development shallowly embeds the script's pure logic:
JSON payloads become Lean structures whose `Option` fields model
possibly-absent keys (`dict.get` with a default), printing becomes
lists of the printed strings, `sys.exit` / raised exceptions become
explicit outcome values, and machine arithmetic is `Int`/`Nat`.
Python's `datetime.fromtimestamp` + `strftime` is embedded with an
explicit civil-calendar conversion (modelled in UTC); Python dict
`repr` used in a few diagnostic prints is abstracted by small
rendering functions (the claims never depend on that text).
-/

namespace Caudena

/-- Python exception values that the embedded code can raise. -/
inductive PyErr where
  | typeError (msg : String)
  | attributeError (msg : String)
deriving DecidableEq

/-- The message `str(e)` printed for an exception. -/
def pyErrMsg : PyErr → String
  | PyErr.typeError m => m
  | PyErr.attributeError m => m

/-- How an invocation of a lookup function ends: normal return (process
exit code 0), a propagated `sys.exit` (`SystemExit`), or a propagated
Python exception (process aborts with a traceback, non-zero exit). -/
inductive Outcome where
  | completed
  | exited (code : Nat)
  | raised (e : PyErr)
deriving DecidableEq

/-- A decimal digit character: `chr(48 + n % 10)`. -/
def digitChar10 (n : Nat) : Char := Char.ofNat (48 + n % 10)

/-- Two-digit zero-padded rendering (`%H`, `%M`, `%S`, `%m`, `%d`). -/
def pad2 (n : Nat) : List Char := [digitChar10 (n / 10), digitChar10 n]

/-- Four-digit zero-padded rendering (`%Y` for years up to 9999). -/
def pad4 (n : Nat) : List Char :=
  [digitChar10 (n / 1000), digitChar10 (n / 100), digitChar10 (n / 10), digitChar10 n]

/-- Insert a `,` after every group of three characters of a reversed
digit list (helper for Python's `{n:,}` format). -/
def group3 : List Char → List Char
  | a :: b :: c :: d :: rest => a :: b :: c :: ',' :: group3 (d :: rest)
  | l => l

/-- Python `"{n:,}"` for a natural number. -/
def commaFormatNat (n : Nat) : String :=
  String.mk (group3 (Nat.toDigits 10 n).reverse).reverse

/-- Python `"{i:,}"` for an integer. -/
def commaFormatInt (i : Int) : String :=
  if i < 0 then "-" ++ commaFormatNat i.natAbs else commaFormatNat i.natAbs

/-- Python `"{i:,.2f}"` restricted to integral payload values. -/
def formatUSD (i : Int) : String := commaFormatInt i ++ ".00"

/-- Python `"{i:,.8f}"` restricted to integral payload values. -/
def formatF8 (i : Int) : String := commaFormatInt i ++ ".00000000"

/-- Python slice `s[:20]`. -/
def pySlice20 (s : String) : String := String.mk (s.data.take 20)

/-- Python `str.upper()` (ASCII payloads). -/
def pyUpper (s : String) : String := String.mk (s.data.map Char.toUpper)

/-- Rendering of a possibly-absent integer field via
`data.get(key, "N/A")`: the number itself, or the placeholder. -/
def showOptInt : Option Int → String
  | none => "N/A"
  | some n => toString n

/-- The separator line `"=" * 80`. -/
def eq80 : String := String.mk (List.replicate 80 '=')

/-! ## Timestamp formatting (`format_timestamp`, lines 375-383)

`datetime.fromtimestamp` is embedded by an explicit days-to-civil-date
conversion (Howard Hinnant's algorithm), modelled in UTC.  Python's
`fromtimestamp` raises (and the `except:` branch returns
`str(timestamp)`) exactly when the resulting year falls outside
`1..9999`. -/

/-- Civil date `(year, month, day)` of a day count relative to
1970-01-01 (days-from-civil inverse, floor-division form). -/
def civilFromDays (z0 : Int) : Int × Int × Int :=
  let z := z0 + 719468
  let era := z.fdiv 146097
  let doe := z - era * 146097
  let yoe := (doe - doe.fdiv 1460 + doe.fdiv 36524 - doe.fdiv 146096).fdiv 365
  let y := yoe + era * 400
  let doy := doe - (365 * yoe + yoe.fdiv 4 - yoe.fdiv 100)
  let mp := (5 * doy + 2).fdiv 153
  let d := doy - (153 * mp + 2).fdiv 5 + 1
  let m := mp + (if mp < 10 then 3 else -9)
  (y + (if m ≤ 2 then 1 else 0), m, d)

/-- The civil year in which a Unix timestamp falls. -/
def tsYear (ts : Int) : Int := (civilFromDays (ts.fdiv 86400)).1

/-- `datetime.fromtimestamp` succeeds iff the year is in `1..9999`. -/
def tsParseable (ts : Int) : Prop := 1 ≤ tsYear ts ∧ tsYear ts ≤ 9999

instance (ts : Int) : Decidable (tsParseable ts) := by
  unfold tsParseable; infer_instance

/-- `format_timestamp` on an `int` argument (lines 375-383): `0` is
falsy and yields `"N/A"`; a timestamp `datetime.fromtimestamp` accepts
is rendered `YYYY-MM-DD HH:MM:SS UTC`; otherwise the bare `except:`
returns `str(timestamp)`. -/
def format_timestamp_int (timestamp : Int) : String :=
  if timestamp = 0 then "N/A"
  else if tsParseable timestamp then
    let c := civilFromDays (timestamp.fdiv 86400)
    let sod := (timestamp.emod 86400).toNat
    String.mk (pad4 c.1.toNat ++ '-' :: pad2 c.2.1.toNat ++ '-' :: pad2 c.2.2.toNat
      ++ ' ' :: pad2 (sod / 3600) ++ ':' :: pad2 (sod % 3600 / 60) ++ ':' :: pad2 (sod % 60)
      ++ [' ', 'U', 'T', 'C'])
  else toString timestamp

/-- `format_timestamp` including the `None` argument case: `not None`
is true, so `None` also yields `"N/A"`. -/
def format_timestamp : Option Int → String
  | none => "N/A"
  | some ts => format_timestamp_int ts

/-- Recognizer for the shape `YYYY-MM-DD HH:MM:SS UTC`. -/
def matchesTsPattern (s : String) : Bool :=
  match s.data with
  | [y1, y2, y3, y4, s1, mo1, mo2, s2, d1, d2, s3,
     h1, h2, s4, mi1, mi2, s5, se1, se2, s6, u1, u2, u3] =>
      y1.isDigit && y2.isDigit && y3.isDigit && y4.isDigit && (s1 == '-') &&
      mo1.isDigit && mo2.isDigit && (s2 == '-') && d1.isDigit && d2.isDigit &&
      (s3 == ' ') && h1.isDigit && h2.isDigit && (s4 == ':') &&
      mi1.isDigit && mi2.isDigit && (s5 == ':') && se1.isDigit && se2.isDigit &&
      (s6 == ' ') && (u1 == 'U') && (u2 == 'T') && (u3 == 'C')
  | _ => false

/-! ## Credential loader (`load_env_file`, lines 21-50)

The per-line parsing is embedded over `List Char`: Python `str.strip`,
`str.replace('export ', '')`, `str.split(sep, 1)` and the quote
stripping become explicit list functions. -/

/-- Whitespace characters stripped by Python's `str.strip()`. -/
def pyWS (c : Char) : Bool :=
  c == ' ' || c == '\t' || c == '\n' || c == '\x0d' || c == '\x0b' || c == '\x0c'

/-- Python `str.strip()`. -/
def pyStrip (l : List Char) : List Char :=
  ((l.dropWhile pyWS).reverse.dropWhile pyWS).reverse

/-- The pattern removed by `line.replace('export ', '')`. -/
def expat : List Char := ['e', 'x', 'p', 'o', 'r', 't', ' ']

/-- Does the list start with `"export "`? -/
def startsWithExpat : List Char → Bool
  | 'e' :: 'x' :: 'p' :: 'o' :: 'r' :: 't' :: ' ' :: _ => true
  | _ => false

/-- The prefix added by the `export ` flag. -/
def expFlag (useExport : Bool) : List Char := if useExport then expat else []

/-- Python `line.replace('export ', '')`: every occurrence of the
substring is removed, scanning left to right. -/
def removeExport : List Char → List Char
  | [] => []
  | c :: rest =>
    if startsWithExpat (c :: rest) then removeExport (rest.drop 6)
    else c :: removeExport rest
termination_by l => l.length
decreasing_by
  · simp only [List.length_drop, List.length_cons]; omega
  · simp only [List.length_cons]; omega

/-- Python `line.split(sep, 1)` when the separator occurs: the part
before the first `sep` and the remainder.  `none` when `sep` is absent
(the `len(parts) == 2` check fails). -/
def splitOnce (sep : Char) : List Char → Option (List Char × List Char)
  | [] => none
  | c :: rest =>
    if c = sep then some ([], rest)
    else (splitOnce sep rest).map (fun p => (c :: p.1, p.2))

/-- The double-quote character. -/
def dq : Char := Char.ofNat 34

/-- The single-quote character. -/
def sq : Char := Char.ofNat 39

/-- Strip one pair of matching surrounding quotes
(`value[1:-1]` under the `startswith`/`endswith` checks). -/
def stripQuotes (v : List Char) : List Char :=
  if v.head? = some dq ∧ v.getLast? = some dq then (v.drop 1).dropLast
  else if v.head? = some sq ∧ v.getLast? = some sq then (v.drop 1).dropLast
  else v

/-- Parse one line of a `.env` file (body of the loop in
`load_env_file`): `none` when the line is skipped, otherwise the
key/value pair stored into the dict. -/
def parseEnvLine (raw : List Char) : Option (List Char × List Char) :=
  let line := pyStrip raw
  if line = [] then none
  else if line.head? = some '#' then none
  else
    let sepC : Option Char :=
      if '=' ∈ line then some '=' else if ':' ∈ line then some ':' else none
    match sepC with
    | none => none
    | some sep =>
      let line2 := pyStrip (removeExport line)
      match splitOnce sep line2 with
      | none => none
      | some kv => some (pyStrip kv.1, stripQuotes (pyStrip kv.2))

/-- Insert/overwrite a key in the accumulated dict
(`env_vars[key] = value`, insertion-ordered). -/
def envUpsert (acc : List (List Char × List Char)) (kv : List Char × List Char) :
    List (List Char × List Char) :=
  if acc.any (fun p => p.1 = kv.1) then
    acc.map (fun p => if p.1 = kv.1 then (p.1, kv.2) else p)
  else acc ++ [kv]

/-- `load_env_file` over the lines of the file. -/
def load_env_file (ls : List (List Char)) : List (List Char × List Char) :=
  ls.foldl (fun acc l =>
    match parseEnvLine l with
    | some kv => envUpsert acc kv
    | none => acc) []

/-- Modelled from the spec: the spec's words say the loader
"strip[s] a leading `export` keyword" — i.e. one occurrence, only at
the start of the line — whereas the source removes every occurrence of
`"export "` anywhere in the line.  This variant follows the spec's
words; everything else matches `parseEnvLine`. -/
def stripLeadingExport (l : List Char) : List Char :=
  if startsWithExpat l then l.drop 7 else l

/-- Modelled from the spec: `parseEnvLine` with the spec's
"strip a leading `export` keyword" in place of the source's
`replace('export ', '')`. -/
def parseEnvLineSpec (raw : List Char) : Option (List Char × List Char) :=
  let line := pyStrip raw
  if line = [] then none
  else if line.head? = some '#' then none
  else
    let sepC : Option Char :=
      if '=' ∈ line then some '=' else if ':' ∈ line then some ':' else none
    match sepC with
    | none => none
    | some sep =>
      let line2 := pyStrip (stripLeadingExport line)
      match splitOnce sep line2 with
      | none => none
      | some kv => some (pyStrip kv.1, stripQuotes (pyStrip kv.2))

/-- Characters that are "plain": no whitespace, no comment marker, no
separator, no quote.  Keys and values made of plain characters are
unaffected by stripping, quote removal and `export `-removal. -/
def plainChar (c : Char) : Bool :=
  !(pyWS c || c == '#' || c == '=' || c == ':' || c == dq || c == sq)

/-! ## JWT token generation (`generate_jwt_token`, lines 97-114)

`base64.b64decode` validity is abstracted to its length check over the
base64 alphabet; `datetime.now().timestamp()` is a rational `now`, and
`int(...)` is `⌊·⌋` (the timestamp is positive in practice, where
`int` truncation and floor agree). The HMAC signature is opaque to the
claims: the token's decoded claims are exactly the payload dict. -/

/-- Characters of the base64 alphabet (including padding). -/
def b64Char (c : Char) : Bool :=
  c.isAlphanum || c == '+' || c == '/' || c == '='

/-- Abstraction of `base64.b64decode` succeeding: the base64 characters
of the string (non-alphabet bytes are discarded) form groups of 4. -/
def b64decodeOk (s : String) : Bool :=
  (s.data.filter b64Char).length % 4 == 0

/-- The claims dict `{"kid": kid, "exp": int((now + 5 min).timestamp())}`. -/
structure JwtPayload where
  kid : String
  exp : Int
deriving DecidableEq

/-- `generate_jwt_token`: a base64 decode failure prints and exits
(`Except.error`); otherwise the signed token carries the payload. -/
def generate_jwt_token (kid : String) (secret_b64 : String) (now : ℚ) :
    Except Unit JwtPayload :=
  if b64decodeOk secret_b64 then
    Except.ok { kid := kid, exp := ⌊now + 5 * 60⌋ }
  else Except.error ()

/-! ## Transaction payload data model

Structures mirror the JSON dicts the formatters read; an `Option`
field is a key that may be absent (`dict.get` default applies). -/

/-- One entry of `inputs` / `outputs`. -/
structure IOEntry where
  address : Option String := none
  amount : Option Int := none
  amount_usd : Option Int := none
  score : Option Int := none
  name : Option String := none
  contract : Bool := false
deriving DecidableEq

/-- The `token` sub-dict of a token transfer. -/
structure TokenInfo where
  symbol : Option String := none
  name : Option String := none
  scam : Bool := false
  spam : Bool := false
deriving DecidableEq

/-- The `entity` sub-dict of a token sender/receiver. -/
structure EntityInfo where
  name : Option String := none
  category : Option String := none
deriving DecidableEq

/-- The `sender` / `receiver` sub-dict of a token transfer. -/
structure TokenParty where
  address : Option String := none
  score : Option Int := none
  entity : Option EntityInfo := none
deriving DecidableEq

/-- One entry of `tokens`. -/
structure TokenTransfer where
  token : Option TokenInfo := none
  value : Option Int := none
  usd : Option Int := none
  sender : Option TokenParty := none
  receiver : Option TokenParty := none
deriving DecidableEq

/-- The `data` dict of a transaction-by-hash response. -/
structure TxData where
  hash : Option String := none
  status : Bool := false
  currency : Option String := none
  time : Option Int := none
  height : Option Int := none
  confirmations : Option Int := none
  amount : Option Int := none
  amount_usd : Option Int := none
  fee : Option Int := none
  fee_usd : Option Int := none
  gas : Option Int := none
  gas_used : Option Int := none
  gas_price : Option Int := none
  inputs : List IOEntry := []
  outputs : List IOEntry := []
  tokens : List TokenTransfer := []
deriving DecidableEq

/-- Python truthiness of an optional integer (absent and `0` falsy). -/
def truthyInt : Option Int → Bool
  | none => false
  | some n => n != 0

/-- Python truthiness of an optional string (absent and `""` falsy). -/
def truthyStr : Option String → Bool
  | none => false
  | some s => !s.isEmpty

/-! ## Transaction detail formatter (`print_transaction_details`, lines 217-327) -/

/-- One line of the inputs/outputs listing (lines 250 and 263). -/
def entryLine (i : Nat) (e : IOEntry) : String :=
  "   " ++ toString i ++ ". " ++ pySlice20 (e.address.getD "N/A") ++ "... | "
    ++ commaFormatInt (e.amount.getD 0) ++ " | $" ++ formatUSD (e.amount_usd.getD 0)
    ++ " | Score: " ++ showOptInt e.score ++ " | " ++ e.name.getD "Unidentified"

/-- The `Inputs` section (lines 242-252): skipped entirely when the
list is absent or empty, otherwise a header, the first 3 entries, and
a hidden-entry count when more than 3 exist. -/
def inputsSection (es : List IOEntry) : List String :=
  if es.isEmpty then []
  else ("\n📥 Inputs (" ++ toString es.length ++ "):")
    :: ((es.take 3).enum.map (fun p => entryLine (p.1 + 1) p.2)
      ++ (if 3 < es.length then
            ["   ... e altri " ++ toString (es.length - 3) ++ " input"]
          else []))

/-- The `Outputs` section (lines 254-265), same shape as the inputs. -/
def outputsSection (es : List IOEntry) : List String :=
  if es.isEmpty then []
  else ("\n📤 Outputs (" ++ toString es.length ++ "):")
    :: ((es.take 3).enum.map (fun p => entryLine (p.1 + 1) p.2)
      ++ (if 3 < es.length then
            ["   ... e altri " ++ toString (es.length - 3) ++ " output"]
          else []))

/-- The `Unidentified`-defaulting entity name of a token party
(line 290 / 295). -/
def partyEntityName (p : TokenParty) : String :=
  match p.entity with
  | some e => e.name.getD "Unidentified"
  | none => "Unidentified"

/-- Lines printed for one token transfer (lines 270-296). -/
def tokenLines (t : TokenTransfer) : List String :=
  let ti := t.token.getD {}
  let warning := if ti.scam || ti.spam then " ⚠️  SCAM/SPAM!" else ""
  let sender := t.sender.getD {}
  let receiver := t.receiver.getD {}
  ("   " ++ ti.symbol.getD "N/A" ++ " (" ++ ti.name.getD "N/A" ++ "): "
      ++ commaFormatInt (t.value.getD 0) ++ " ($" ++ formatUSD (t.usd.getD 0) ++ ")"
      ++ warning)
    :: ((if truthyStr sender.address then
          ["      From: " ++ pySlice20 (sender.address.getD "N/A") ++ "... (Score: "
            ++ showOptInt sender.score ++ ", " ++ partyEntityName sender ++ ")"]
        else [])
      ++ (if truthyStr receiver.address then
          ["      To: " ++ pySlice20 (receiver.address.getD "N/A") ++ "... (Score: "
            ++ showOptInt receiver.score ++ ", " ++ partyEntityName receiver ++ ")"]
        else []))

/-- The `Token Transfers` section (lines 268-296): first 5 transfers. -/
def tokensSection (ts : List TokenTransfer) : List String :=
  if ts.isEmpty then []
  else ("\n🪙 Token Transfers (" ++ toString ts.length ++ "):")
    :: (ts.take 5).flatMap tokenLines

/-- The TypeError produced by `'N/A' < 4`. -/
def scoreTypeError : PyErr :=
  PyErr.typeError "unsupported comparison between str and int"

/-- First warning line for a suspicious contract (line 309 / 320). -/
def contractWarn1 (tag : String) (e : IOEntry) : String :=
  "   ⚠️  CONTRACT SOSPETTO (" ++ tag ++ "): " ++ e.address.getD "N/A"

/-- Second warning line for a suspicious contract (line 310 / 321). -/
def contractWarn2 (e : IOEntry) : String :=
  "      Score: " ++ showOptInt e.score ++ "/10 | Entity: " ++ e.name.getD "Unidentified"

/-- One pass of the contract loop (lines 303-311 / 314-322).  For a
contract-flagged entry, `score = inp.get('score', 'N/A')` followed by
`if score and score < 4:` means: absent score gives the truthy string
`'N/A'` and then `'N/A' < 4` raises `TypeError`; a present score is
first tested for truthiness (so `0` never warns) and then compared.
Returns the printed lines and the `malicious_found` flag. -/
def scanContracts (tag : String) : List IOEntry → Bool → (List String × Bool) × Option PyErr
  | [], found => (([], found), none)
  | e :: rest, found =>
    if e.contract then
      match e.score with
      | none => (([], found), some scoreTypeError)
      | some s =>
        if s ≠ 0 ∧ s < 4 then
          match scanContracts tag rest true with
          | ((ls, f), err) => ((contractWarn1 tag e :: contractWarn2 e :: ls, f), err)
        else scanContracts tag rest found
    else scanContracts tag rest found

/-- The contract-analysis block (lines 298-325): header, a scan of all
inputs then all outputs, and the confirmation line when nothing was
flagged. -/
def contractSection (d : TxData) : List String × Option PyErr :=
  let hdr := "\n⚠️  ANALISI CONTRACT:"
  match scanContracts "Input" d.inputs false with
  | ((l1, _), some e) => (hdr :: l1, some e)
  | ((l1, f1), none) =>
    match scanContracts "Output" d.outputs f1 with
    | ((l2, _), some e) => (hdr :: (l1 ++ l2), some e)
    | ((l2, f2), none) =>
      (hdr :: (l1 ++ l2
        ++ (if f2 then [] else ["   ✅ Nessun contract sospetto rilevato"])), none)

/-- `print_transaction_details`: the printed lines, plus the exception
when the contract analysis raises (in which case the trailing
separator is never reached). -/
def print_transaction_details (d : TxData) : List String × Option PyErr :=
  let pre :=
    [eq80, "📄 DETTAGLI TRANSAZIONE", eq80,
     "\n🔹 Hash: " ++ d.hash.getD "N/A",
     "🔹 Status: " ++ (if d.status then "✅ Confermata" else "⏳ In attesa"),
     "🔹 Currency: " ++ pyUpper (d.currency.getD "N/A"),
     "🔹 Timestamp: " ++ format_timestamp (some (d.time.getD 0)),
     "🔹 Block Height: " ++ showOptInt d.height,
     "🔹 Confirmations: " ++ commaFormatInt (d.confirmations.getD 0),
     "\n💰 Importi:",
     "   Amount: " ++ showOptInt d.amount,
     "   Amount USD: $" ++ formatUSD (d.amount_usd.getD 0),
     "   Fee: " ++ showOptInt d.fee,
     "   Fee USD: $" ++ formatUSD (d.fee_usd.getD 0)]
    ++ (if truthyInt d.gas then
          ["   Gas: " ++ showOptInt d.gas,
           "   Gas Used: " ++ showOptInt d.gas_used,
           "   Gas Price: " ++ showOptInt d.gas_price]
        else [])
    ++ inputsSection d.inputs
    ++ outputsSection d.outputs
    ++ tokensSection d.tokens
  match contractSection d with
  | (cl, some e) => (pre ++ cl, some e)
  | (cl, none) => (pre ++ cl ++ ["\n" ++ eq80], none)

/-! ## Transaction summary and address stats formatters -/

/-- One entry of the address-transactions listing. -/
structure TxSummaryData where
  hash : Option String := none
  time : Option Int := none
  direction : Option String := none
  total_in : Option Int := none
  total_out : Option Int := none
  total_in_usd : Option Int := none
  total_out_usd : Option Int := none
  fee : Option Int := none
  fee_usd : Option Int := none
  confirmations : Option Int := none
deriving DecidableEq

/-- `print_transaction_summary` (lines 329-337): the amount columns are
chosen by `tx.get('direction') == 'out'`. -/
def print_transaction_summary (tx : TxSummaryData) : List String :=
  let isOut := tx.direction == some "out"
  ["Hash: " ++ pySlice20 (tx.hash.getD "N/A") ++ "...",
   "Time: " ++ format_timestamp (some (tx.time.getD 0)),
   "Direction: " ++ tx.direction.getD "N/A",
   "Amount: " ++ commaFormatInt ((if isOut then tx.total_out else tx.total_in).getD 0),
   "Amount USD: $" ++ formatUSD ((if isOut then tx.total_out_usd else tx.total_in_usd).getD 0),
   "Fee: " ++ commaFormatInt (tx.fee.getD 0) ++ " ($" ++ formatUSD (tx.fee_usd.getD 0) ++ ")",
   "Confirmations: " ++ commaFormatInt (tx.confirmations.getD 0)]

/-- A dict-valued JSON field: absent (the `dict.get` default applies),
JSON `null` (Python `None`, whose `.get` raises `AttributeError`), or
an actual object. -/
inductive JField (α : Type) where
  | missing : JField α
  | null : JField α
  | val : α → JField α
deriving DecidableEq

/-- The value used when the key is absent. -/
def JField.orDefault : JField α → α → α
  | JField.val a, _ => a
  | _, d => d

/-- The `balance` / `balance_usd` sub-dict of address stats. -/
structure BalanceObj where
  balance : Option Int := none
  total_in : Option Int := none
  total_out : Option Int := none
deriving DecidableEq

/-- The `trx_count` sub-dict of address stats. -/
structure TrxCount where
  inCount : Option Int := none
  outCount : Option Int := none
deriving DecidableEq

/-- The `data` dict of an address-stats response. -/
structure StatsData where
  address : Option String := none
  blockchain : Option String := none
  balance : JField BalanceObj := JField.missing
  balance_usd : JField BalanceObj := JField.missing
  trx_count : JField TrxCount := JField.missing
  entity : Option EntityInfo := none
  score : Option Int := none
  first_seen : Option Int := none
  last_seen : Option Int := none
deriving DecidableEq

/-- The AttributeError of `None.get(...)`. -/
def noneGetError : PyErr :=
  PyErr.attributeError "NoneType object has no attribute get"

/-- `print_address_stats` (lines 339-373).  A `null` value under
`balance`, `balance_usd` or `trx_count` makes the first `.get` call on
it raise `AttributeError` — after the section header was printed. -/
def print_address_stats (d : StatsData) : List String × Option PyErr :=
  let base :=
    [eq80, "📊 STATISTICHE INDIRIZZO", eq80,
     "\n🔹 Address: " ++ d.address.getD "N/A"]
  match d.balance with
  | JField.null => (base ++ ["\n💰 Balance:"], some noneGetError)
  | b0 =>
    let b := b0.orDefault {}
    let base := base ++
      ["\n💰 Balance:",
       "   Current: " ++ formatF8 (b.balance.getD 0) ++ " " ++ pyUpper (d.blockchain.getD ""),
       "   Total In: " ++ formatF8 (b.total_in.getD 0),
       "   Total Out: " ++ formatF8 (b.total_out.getD 0)]
    match d.balance_usd with
    | JField.null => (base ++ ["\n💰 Balance USD:"], some noneGetError)
    | u0 =>
      let u := u0.orDefault {}
      let base := base ++
        ["\n💰 Balance USD:",
         "   Current: $" ++ formatUSD (u.balance.getD 0),
         "   Total In: $" ++ formatUSD (u.total_in.getD 0),
         "   Total Out: $" ++ formatUSD (u.total_out.getD 0)]
      match d.trx_count with
      | JField.null => (base ++ ["\n📊 Transazioni:"], some noneGetError)
      | t0 =>
        let t := t0.orDefault {}
        let base := base ++
          ["\n📊 Transazioni:",
           "   Incoming: " ++ commaFormatInt (t.inCount.getD 0),
           "   Outgoing: " ++ commaFormatInt (t.outCount.getD 0)]
          ++ (match d.entity with
              | some e =>
                ["\n🏢 Entity:",
                 "   Name: " ++ e.name.getD "N/A",
                 "   Category: " ++ e.category.getD "N/A"]
              | none => [])
          ++ ["\n🔹 Score: " ++ showOptInt d.score ++ "/10",
              "🔹 First Seen: " ++ format_timestamp (some (d.first_seen.getD 0)),
              "🔹 Last Seen: " ++ format_timestamp (some (d.last_seen.getD 0))]
        (base, none)

/-! ## API client and CLI orchestration (lines 116-215)

An `HttpResponse` records what the remote returned for one call:
its status code, the typed parsed body (for the 200 path), the
`repr`-string of the parsed body when the error body is valid JSON
(for the non-200 path), and the raw text.  `sys.exit(1)` becomes
`Except.error 1`. -/

/-- One HTTP response as `requests` delivers it. -/
structure HttpResponse (α : Type) where
  status_code : Nat
  json : Option α
  jsonErrRepr : Option String
  text : String
deriving DecidableEq

/-- The diagnostic line printed for a non-200 response (lines 136-141):
the parsed JSON error body when it parses, the raw text otherwise. -/
def httpErrorLine (code : Nat) (jrepr : Option String) (text : String) : String :=
  "❌ Errore HTTP " ++ toString code ++ ": " ++ (match jrepr with
    | some j => j
    | none => text)

/-- `make_api_request` (lines 116-153): on a non-200 status, print the
error body and `sys.exit(1)`; on 200 return the parsed JSON; a 200
body that fails to parse follows the `RequestException` path (printed,
then `sys.exit(1)`). -/
def make_api_request (resp : HttpResponse α) : List String × Except Nat α :=
  if resp.status_code ≠ 200 then
    ([httpErrorLine resp.status_code resp.jsonErrRepr resp.text], Except.error 1)
  else
    match resp.json with
    | some b => ([], Except.ok b)
    | none => (["❌ Errore nella richiesta: invalid JSON"], Except.error 1)

/-- A transaction-by-hash response envelope. -/
structure TxResponse where
  status : Bool := false
  data : Option TxData := none
deriving DecidableEq

/-- An address-stats response envelope. -/
structure StatsResponse where
  status : Bool := false
  data : Option StatsData := none
deriving DecidableEq

/-- The `pagination` dict of a transactions response. -/
structure Pagination where
  total_entries : Option Int := none
deriving DecidableEq

/-- An address-transactions response envelope. -/
structure TxListResponse where
  status : Bool := false
  data : List TxSummaryData := []
  pagination : Option Pagination := none
deriving DecidableEq

/-- Python `repr` of a bool. -/
def pyBool (b : Bool) : String := if b then "True" else "False"

/-- Abstracted `repr` of a transaction response, used by the
diagnostic prints `"   Risposta: ..."` (content irrelevant to the
claims). -/
def reprTxResponse (r : TxResponse) : String :=
  "\x7bstatus: " ++ pyBool r.status
    ++ (match r.data with
        | some _ => ", data: ..."
        | none => "") ++ "\x7d"

/-- The run of one lookup function: the printed lines and how the
invocation ended (`main` adds nothing afterwards, so `completed`
means process exit code 0). -/
structure ModeRun where
  lines : List String
  outcome : Outcome
deriving DecidableEq

/-- The intro prints of hash mode (lines 157-158). -/
def introHash (currency tx_hash : String) : List String :=
  ["\n🔍 Verifica transazione: " ++ tx_hash,
   "   Currency: " ++ pyUpper currency ++ "\n"]

/-- `check_transaction_by_hash` (lines 155-177).  The whole
orchestration sits in `try: ... except SystemExit: pass except
Exception as e: print(...)`: a `sys.exit` from the API client is
swallowed silently, and any other exception is printed; either way the
function returns and the process exits 0. -/
def check_transaction_by_hash (currency tx_hash : String)
    (resp : HttpResponse TxResponse) : ModeRun :=
  let intro := introHash currency tx_hash
  match make_api_request resp with
  | (al, Except.error _) => ⟨intro ++ al, Outcome.completed⟩
  | (al, Except.ok result) =>
    if result.status then
      match result.data with
      | some d =>
        match print_transaction_details d with
        | (dl, none) => ⟨intro ++ al ++ dl, Outcome.completed⟩
        | (dl, some e) =>
          ⟨intro ++ al ++ dl ++ ["❌ Errore imprevisto: " ++ pyErrMsg e], Outcome.completed⟩
      | none =>
        ⟨intro ++ al ++ ["❌ Nessun dato nella risposta",
          "   Risposta completa: " ++ reprTxResponse result], Outcome.completed⟩
    else
      ⟨intro ++ al ++ ["❌ Transazione non trovata o errore nella risposta",
        "   Risposta: " ++ reprTxResponse result], Outcome.completed⟩

/-- The body sent with the transactions POST (lines 197-201). -/
structure TxQueryBody where
  page : Int
  sort_by : String
  sort_order : String
deriving DecidableEq

/-- One HTTP request as issued by the orchestration. -/
structure ApiRequest where
  method : String
  endpoint : String
  body : Option TxQueryBody
deriving DecidableEq

/-- The stats request of address mode (lines 185-186). -/
def statsRequest (currency address : String) : ApiRequest :=
  ⟨"GET", "/v2/" ++ currency ++ "/address/stats/" ++ address, none⟩

/-- The transactions request of address mode (lines 196-202). -/
def txRequest (currency address : String) : ApiRequest :=
  ⟨"POST", "/v2/" ++ currency ++ "/address/transactions/" ++ address,
    some ⟨1, "time", "desc"⟩⟩

/-- The intro prints of address mode (lines 181-182). -/
def introAddr (currency address : String) : List String :=
  ["\n🔍 Verifica indirizzo: " ++ address,
   "   Currency: " ++ pyUpper currency ++ "\n"]

/-- The banner printed between the stats block and the transactions
block (lines 192-194). -/
def txBanner : List String :=
  ["\n" ++ eq80, "📋 Ultime transazioni (prime 5):", eq80 ++ "\n"]

/-- The transactions block on a status-true response (lines 204-213):
total entry count from the pagination metadata, then the first 5
transactions. -/
def txSection (tres : TxListResponse) : List String :=
  ("Totale transazioni: " ++ toString ((tres.pagination.getD {}).total_entries.getD 0) ++ "\n")
    :: (tres.data.take 5).enum.flatMap (fun p =>
        ("--- Transazione " ++ toString (p.1 + 1) ++ " ---")
          :: print_transaction_summary p.2 ++ [""])

/-- The run of `check_transaction_by_address`: requests actually
issued, printed lines, and how the invocation ended. -/
structure AddrRun where
  requests : List ApiRequest
  lines : List String
  outcome : Outcome
deriving DecidableEq

/-- The stats step of address mode (lines 188-189): nothing is printed
when the envelope's `status` is falsy. -/
def statsStep (sres : StatsResponse) : List String × Option PyErr :=
  if sres.status then print_address_stats (sres.data.getD {}) else ([], none)

/-- `check_transaction_by_address` (lines 179-215).  No `try/except`
here: a `sys.exit` from the API client terminates the process
(non-zero), and an exception raised while printing the stats aborts
before the transactions call.  The stats block is only printed when
the stats envelope has a truthy `status`; there is no `else`.
The stats step (lines 188-189) is split out as `statsStep`. -/
def check_transaction_by_address (currency address : String)
    (statsResp : HttpResponse StatsResponse) (txResp : HttpResponse TxListResponse) :
    AddrRun :=
  let intro := introAddr currency address
  match make_api_request statsResp with
  | (sl, Except.error code) =>
    ⟨[statsRequest currency address], intro ++ sl, Outcome.exited code⟩
  | (sl, Except.ok sres) =>
    match statsStep sres with
    | (bl, some e) =>
      ⟨[statsRequest currency address], intro ++ sl ++ bl, Outcome.raised e⟩
    | (bl, none) =>
      match make_api_request txResp with
      | (tl, Except.error code) =>
        ⟨[statsRequest currency address, txRequest currency address],
          intro ++ sl ++ bl ++ txBanner ++ tl, Outcome.exited code⟩
      | (tl, Except.ok tres) =>
        ⟨[statsRequest currency address, txRequest currency address],
          intro ++ sl ++ bl ++ txBanner ++ tl
            ++ (if tres.status then txSection tres else ["❌ Nessuna transazione trovata"]),
          Outcome.completed⟩

/-! ## Derived predicates and concrete inputs used by the claims -/

/-- An entry the contract analysis actually warns about: contract flag
truthy, score present, truthy (non-zero) and `< 4`. -/
def suspiciousEntry (e : IOEntry) : Bool :=
  e.contract && (match e.score with
    | some s => decide (s ≠ 0 ∧ s < 4)
    | none => false)

/-- The warning lines the analysis prints for one suspicious entry. -/
def warnLines (tag : String) (e : IOEntry) : List String :=
  [contractWarn1 tag e, contractWarn2 e]

/-- An HTTP 404 response carrying a JSON error body. -/
def resp404 : HttpResponse TxResponse :=
  ⟨404, none, some "\x7berror: Not found\x7d", "not found"⟩

/-- A 404 on the address-stats endpoint. -/
def statsResp404 : HttpResponse StatsResponse :=
  ⟨404, none, some "\x7berror: Not found\x7d", "not found"⟩

/-- A benign transactions response (never reached in the error runs). -/
def txRespEmpty : HttpResponse TxListResponse := ⟨200, some {}, none, ""⟩

/-- A 404 on the address-transactions endpoint. -/
def txListResp404 : HttpResponse TxListResponse :=
  ⟨404, none, some "\x7berror: Not found\x7d", "not found"⟩

/-- A 200 stats response whose `data.balance` is JSON `null`: rendering
it raises `AttributeError` inside `print_address_stats`. -/
def statsRespNullBalance : HttpResponse StatsResponse :=
  ⟨200, some { status := true, data := some { balance := JField.null } }, none, ""⟩

/-- A 200 stats response with `status: false` (nothing to render). -/
def statsRespStatusFalse : HttpResponse StatsResponse :=
  ⟨200, some { status := false }, none, ""⟩

/-- A 200 transactions response with 7 entries and 42 total entries
(the spec's address-mode scenario). -/
def txResp7 : HttpResponse TxListResponse :=
  ⟨200, some { status := true,
               data := [{ hash := some "t1" }, { hash := some "t2" }, { hash := some "t3" },
                        { hash := some "t4" }, { hash := some "t5" }, { hash := some "t6" },
                        { hash := some "t7" }],
               pagination := some { total_entries := some 42 } }, none, ""⟩

/-- A transaction whose only input is a contract-flagged entry without
a `score` key. -/
def txMissingScore : TxData := { inputs := [{ contract := true }] }

/-- A contract-flagged entry whose score is `0`. -/
def entryScoreZero : IOEntry :=
  { contract := true, score := some 0, address := some "0xzero" }

/-- A transaction with one genuinely suspicious contract input and one
clean output. -/
def c2WitnessTx : TxData :=
  { inputs := [{ contract := true, score := some 2, address := some "0xbad" }],
    outputs := [{ contract := true, score := some 9, address := some "0xok" }] }

/-- A 200 hash response whose rendering raises (the missing-score
contract entry). -/
def hashRespCrash : HttpResponse TxResponse :=
  ⟨200, some { status := true, data := some txMissingScore }, none, ""⟩

/-! ## General lemmas -/

theorem digitChar10_isDigit (n : Nat) : (digitChar10 n).isDigit = true := by
  have h : n % 10 < 10 := Nat.mod_lt _ (by norm_num)
  unfold digitChar10
  generalize hk : n % 10 = k at h
  interval_cases k <;> decide

/-! ## Lemmas about the `.env` line parser -/

theorem dropWhile_eq_self_of_head (p : Char → Bool) (l : List Char)
    (h : ∀ c, l.head? = some c → p c = false) : l.dropWhile p = l := by
  cases l with
  | nil => rfl
  | cons c t =>
    have hc := h c rfl
    simp [List.dropWhile, hc]

theorem pyStrip_eq_self (l : List Char)
    (hh : ∀ c, l.head? = some c → pyWS c = false)
    (hl : ∀ c, l.getLast? = some c → pyWS c = false) : pyStrip l = l := by
  unfold pyStrip
  rw [dropWhile_eq_self_of_head _ _ hh]
  rw [dropWhile_eq_self_of_head _ _ (by
    intro c hc
    rw [List.head?_reverse] at hc
    exact hl c hc)]
  exact List.reverse_reverse l

theorem pyStrip_eq_self_of_forall (l : List Char)
    (h : ∀ c ∈ l, pyWS c = false) : pyStrip l = l := by
  apply pyStrip_eq_self
  · intro c hc
    cases l with
    | nil => simp at hc
    | cons a t =>
      simp only [List.head?_cons, Option.some.injEq] at hc
      exact hc ▸ h a (List.mem_cons_self _ _)
  · intro c hc
    cases hnil : l with
    | nil => subst hnil; simp at hc
    | cons a t =>
      subst hnil
      rw [List.getLast?_eq_getLast _ (by simp), Option.some.injEq] at hc
      exact hc ▸ h _ (List.getLast_mem _)

theorem startsWithExpat_space {l : List Char} (h : startsWithExpat l = true) :
    ' ' ∈ l := by
  unfold startsWithExpat at h
  split at h
  · simp
  · exact absurd h (by simp)

theorem removeExport_of_no_space (l : List Char) (h : ∀ c ∈ l, c ≠ ' ') :
    removeExport l = l := by
  induction l with
  | nil => rw [removeExport]
  | cons c rest ih =>
    rw [removeExport]
    have hsw : startsWithExpat (c :: rest) = false := by
      cases hb : startsWithExpat (c :: rest) with
      | false => rfl
      | true => exact absurd rfl (h _ (startsWithExpat_space hb))
    rw [hsw]
    simp only [Bool.false_eq_true, if_false]
    rw [ih (fun x hx => h x (List.mem_cons_of_mem _ hx))]

theorem removeExport_expat_append (t : List Char) :
    removeExport (expat ++ t) = removeExport t := by
  show removeExport ('e' :: 'x' :: 'p' :: 'o' :: 'r' :: 't' :: ' ' :: t) = removeExport t
  rw [removeExport]
  rfl

theorem splitOnce_append (sep : Char) (k v : List Char) (hk : sep ∉ k) :
    splitOnce sep (k ++ sep :: v) = some (k, v) := by
  induction k with
  | nil => simp [splitOnce]
  | cons c t ih =>
    have hc : ¬ c = sep := fun hc => hk (hc ▸ List.mem_cons_self _ _)
    simp only [List.cons_append, splitOnce, if_neg hc, List.append_eq]
    rw [ih (fun hm => hk (List.mem_cons_of_mem _ hm))]
    rfl

/-- Unpack what `plainChar` excludes. -/
theorem plainChar_spec {c : Char} (h : plainChar c = true) :
    pyWS c = false ∧ c ≠ '#' ∧ c ≠ '=' ∧ c ≠ ':' ∧ c ≠ dq ∧ c ≠ sq ∧ c ≠ ' ' := by
  unfold plainChar at h
  simp only [Bool.not_eq_true', Bool.or_eq_false_iff, beq_eq_false_iff_ne, ne_eq] at h
  obtain ⟨⟨⟨⟨⟨hws, h1⟩, h2⟩, h3⟩, h4⟩, h5⟩ := h
  refine ⟨hws, h1, h2, h3, h4, h5, ?_⟩
  intro hc
  subst hc
  simp [pyWS] at hws

theorem stripQuotes_of_plain (v : List Char) (hv : ∀ c ∈ v, plainChar c = true) :
    stripQuotes v = v := by
  unfold stripQuotes
  cases v with
  | nil => simp
  | cons c t =>
    have hc := plainChar_spec (hv c (List.mem_cons_self _ _))
    rw [if_neg, if_neg]
    · intro hcon
      exact hc.2.2.2.2.2.1 (by simpa using hcon.1)
    · intro hcon
      exact hc.2.2.2.2.1 (by simpa using hcon.1)

theorem stripQuotes_wrap (q : Char) (v : List Char) (hq : q = dq ∨ q = sq) :
    stripQuotes (q :: v ++ [q]) = v := by
  have hlast : (q :: v ++ [q]).getLast? = some q := by
    rw [show q :: v ++ [q] = (q :: v) ++ [q] from rfl]
    exact List.getLast?_concat _
  have hdrop : ((q :: v ++ [q]) : List Char).drop 1 = v ++ [q] := rfl
  unfold stripQuotes
  rcases hq with rfl | rfl
  · rw [if_pos ⟨rfl, hlast⟩, hdrop, List.dropLast_concat]
  · rw [if_neg, if_pos ⟨rfl, hlast⟩, hdrop, List.dropLast_concat]
    intro hcon
    exact absurd (by simpa using hcon.1) (by decide)

theorem pyWS_ne_space {c : Char} (h : pyWS c = false) : c ≠ ' ' := by
  intro hc
  subst hc
  simp [pyWS] at h

theorem getLast?_append_cons (A : List Char) (x : Char) (B : List Char) :
    (A ++ x :: B).getLast? = (x :: B).getLast? := by
  rw [List.getLast?_append]
  rw [List.getLast?_eq_getLast (x :: B) (by simp)]
  rfl

theorem getLast?_cons_of_ne_nil (x : Char) {B : List Char} (h : B ≠ []) :
    (x :: B).getLast? = B.getLast? := by
  rw [show x :: B = [x] ++ B from rfl, List.getLast?_append,
    List.getLast?_eq_getLast B h]
  rfl

/-- Evaluate `parseEnvLine` once its intermediate stages are known. -/
theorem parseEnvLine_eval (raw line2 k0 v0 : List Char) (sep : Char)
    (h1 : ¬ pyStrip raw = [])
    (h2 : ¬ (pyStrip raw).head? = some '#')
    (h3 : (if '=' ∈ pyStrip raw then some '=' else
           if ':' ∈ pyStrip raw then some ':' else none) = some sep)
    (h4 : pyStrip (removeExport (pyStrip raw)) = line2)
    (h5 : splitOnce sep line2 = some (k0, v0)) :
    parseEnvLine raw = some (pyStrip k0, stripQuotes (pyStrip v0)) := by
  unfold parseEnvLine
  simp only [if_neg h1, if_neg h2, h3, h4, h5]

theorem pyStrip_expFlag (ue : Bool) (rest : List Char)
    (hrest : ∀ c ∈ rest, pyWS c = false) (hne : rest ≠ []) :
    pyStrip (expFlag ue ++ rest) = expFlag ue ++ rest := by
  cases ue with
  | false => simpa [expFlag] using pyStrip_eq_self_of_forall rest hrest
  | true =>
    apply pyStrip_eq_self
    · intro c hc
      have : 'e' = c := by
        simpa [expFlag, expat] using hc
      subst this
      decide
    · intro c hc
      have hlast : (expat ++ rest).getLast? = some (rest.getLast hne) := by
        rw [List.getLast?_append, List.getLast?_eq_getLast rest hne]
        rfl
      rw [expFlag, if_pos rfl, hlast, Option.some.injEq] at hc
      exact hc ▸ hrest _ (List.getLast_mem hne)

theorem removeExport_expFlag (ue : Bool) (rest : List Char)
    (hrest : ∀ c ∈ rest, pyWS c = false) :
    removeExport (expFlag ue ++ rest) = rest := by
  have hs : removeExport rest = rest :=
    removeExport_of_no_space rest (fun c hc => pyWS_ne_space (hrest c hc))
  cases ue with
  | false => simpa [expFlag] using hs
  | true => rw [expFlag, if_pos rfl, removeExport_expat_append, hs]

/-- Core evaluation of `parseEnvLine` on a well-formed assignment line
`[export ]key<sep>value`, with the wrapped value `wv` arbitrary except
for whitespace-freedom and the stated stripping behaviour. -/
theorem parseEnvLine_core (k wv v : List Char) (sep : Char) (ue : Bool)
    (hk : k ≠ []) (hkp : ∀ c ∈ k, plainChar c = true)
    (hwvWS : ∀ c ∈ wv, pyWS c = false)
    (hsep : sep = '=' ∨ sep = ':')
    (hEqNotIn : sep = ':' → '=' ∉ wv)
    (hstrip : stripQuotes (pyStrip wv) = v) :
    parseEnvLine (expFlag ue ++ (k ++ sep :: wv)) = some (k, v) := by
  have hrestWS : ∀ c ∈ k ++ sep :: wv, pyWS c = false := by
    intro c hc
    rcases List.mem_append.mp hc with h | h
    · exact (plainChar_spec (hkp c h)).1
    · rcases List.mem_cons.mp h with rfl | h
      · rcases hsep with rfl | rfl <;> decide
      · exact hwvWS c h
  have hrestNE : k ++ sep :: wv ≠ [] := by simp
  have hstrip1 : pyStrip (expFlag ue ++ (k ++ sep :: wv)) = expFlag ue ++ (k ++ sep :: wv) :=
    pyStrip_expFlag ue _ hrestWS hrestNE
  obtain ⟨c0, k', rfl⟩ : ∃ c0 k', k = c0 :: k' := by
    cases k with
    | nil => exact absurd rfl hk
    | cons a t => exact ⟨a, t, rfl⟩
  have hc0 := plainChar_spec (hkp c0 (List.mem_cons_self _ _))
  have h1 : ¬ pyStrip (expFlag ue ++ (c0 :: k' ++ sep :: wv)) = [] := by
    rw [hstrip1]
    cases ue <;> simp [expFlag]
  have h2 : ¬ (pyStrip (expFlag ue ++ (c0 :: k' ++ sep :: wv))).head? = some '#' := by
    rw [hstrip1]
    cases ue with
    | false =>
      intro hcon
      simp only [expFlag, Bool.false_eq_true, if_false, List.nil_append,
        List.cons_append, List.head?_cons, Option.some.injEq] at hcon
      exact hc0.2.1 hcon
    | true =>
      intro hcon
      simp [expFlag, expat] at hcon
  have hsepk : sep ∉ c0 :: k' := by
    intro hmem
    have := plainChar_spec (hkp _ hmem)
    rcases hsep with rfl | rfl
    · exact this.2.2.1 rfl
    · exact this.2.2.2.1 rfl
  have h3 : (if '=' ∈ pyStrip (expFlag ue ++ (c0 :: k' ++ sep :: wv)) then some '=' else
             if ':' ∈ pyStrip (expFlag ue ++ (c0 :: k' ++ sep :: wv)) then some ':' else none)
              = some sep := by
    rw [hstrip1]
    rcases hsep with rfl | rfl
    · rw [if_pos]
      cases ue <;> simp [expFlag, expat]
    · rw [if_neg, if_pos]
      · cases ue <;> simp [expFlag, expat]
      · intro hmem
        rcases List.mem_append.mp hmem with h | h
        · cases ue <;> simp [expFlag, expat] at h
        · rcases List.mem_append.mp h with h | h
          · exact (plainChar_spec (hkp _ h)).2.2.1 rfl
          · rcases List.mem_cons.mp h with hh | hh
            · exact absurd hh (by decide)
            · exact hEqNotIn rfl hh
  have h4 : pyStrip (removeExport (pyStrip (expFlag ue ++ (c0 :: k' ++ sep :: wv))))
      = c0 :: k' ++ sep :: wv := by
    rw [hstrip1, removeExport_expFlag ue _ hrestWS, pyStrip_eq_self_of_forall _ hrestWS]
  have h5 : splitOnce sep (c0 :: k' ++ sep :: wv) = some (c0 :: k', wv) :=
    splitOnce_append sep (c0 :: k') wv hsepk
  rw [parseEnvLine_eval _ _ _ _ sep h1 h2 h3 h4 h5]
  rw [pyStrip_eq_self_of_forall _ (fun c hc => (plainChar_spec (hkp c hc)).1), hstrip]

theorem removeExport_cons_of_not_start (c : Char) (rest : List Char)
    (h : startsWithExpat (c :: rest) = false) :
    removeExport (c :: rest) = c :: removeExport rest := by
  rw [removeExport, h]
  simp

/-! ## Claim theorems -/

/-- C6, counterexample.  The claim says the loader "strips exactly one
leading `export` keyword (and nothing elsewhere in the line)".  On the
line `A=export b` the source's `line.replace('export ', '')` also
removes the `export ` occurring inside the *value*, yielding value
`b`, while the spec-modelled leading-only variant yields `export b`. -/
theorem C6_counterexample :
    parseEnvLine ("A=export b").data = some (("A").data, ("b").data)
    ∧ parseEnvLineSpec ("A=export b").data = some (("A").data, ("export b").data)
    ∧ parseEnvLine ("A=export b").data ≠ parseEnvLineSpec ("A=export b").data := by
  have hre : removeExport ("A=export b").data = ("A=b").data := by
    rw [show ("A=export b").data = 'A' :: '=' :: (expat ++ ("b").data) from rfl]
    rw [removeExport_cons_of_not_start _ _ (by decide)]
    rw [removeExport_cons_of_not_start _ _ (by decide)]
    rw [removeExport_expat_append]
    rw [removeExport_of_no_space _ (by decide)]
  have hmain : parseEnvLine ("A=export b").data = some (("A").data, ("b").data) := by
    have h4 : pyStrip (removeExport (pyStrip ("A=export b").data)) = ("A=b").data := by
      rw [show pyStrip ("A=export b").data = ("A=export b").data from by decide, hre]
      decide
    rw [parseEnvLine_eval ("A=export b").data (("A=b").data) (("A").data) (("b").data) '='
      (by decide) (by decide) (by decide) h4 (by decide)]
    decide
  refine ⟨hmain, by decide, ?_⟩
  rw [hmain, show parseEnvLineSpec ("A=export b").data
    = some (("A").data, ("export b").data) from by decide]
  decide

/-- C6, amended.  The loader ignores blank lines and `#` comments,
prefers `=` over `:` when both occur, trims whitespace, and strips one
pair of matching quotes; but instead of stripping one leading `export`
keyword it removes every occurrence of the substring `"export "`
anywhere in the line.  Consequently, for keys and values free of
whitespace, separators, quotes and `#`, any combination of separator
choice, `export ` prefix and quoting yields the same logical value. -/
theorem C6_amended :
    (∀ raw : List Char, pyStrip raw = [] → parseEnvLine raw = none)
  ∧ (∀ raw rest : List Char, pyStrip raw = '#' :: rest → parseEnvLine raw = none)
  ∧ (∀ (k v : List Char) (sep q : Char) (useExport useQuote : Bool),
      k ≠ [] → (∀ c ∈ k, plainChar c = true) → (∀ c ∈ v, plainChar c = true) →
      sep = '=' ∨ sep = ':' → q = dq ∨ q = sq →
      parseEnvLine (expFlag useExport ++ (k ++ sep ::
        (if useQuote then q :: v ++ [q] else v))) = some (k, v))
  ∧ (∀ k v w : List Char,
      k ≠ [] → (∀ c ∈ k, plainChar c = true) → (∀ c ∈ v, plainChar c = true) →
      (∀ c ∈ w, plainChar c = true) →
      parseEnvLine (k ++ ':' :: (v ++ '=' :: w)) = some (k ++ ':' :: v, w)) := by
  refine ⟨?_, ?_, ?_, ?_⟩
  · intro raw h
    simp [parseEnvLine, h]
  · intro raw rest h
    simp [parseEnvLine, h]
  · intro k v sep q ue uq hk hkp hvp hsep hq
    have hqWS : pyWS q = false := by rcases hq with rfl | rfl <;> decide
    have hvWS : ∀ c ∈ v, pyWS c = false := fun c hc => (plainChar_spec (hvp c hc)).1
    cases uq with
    | true =>
      rw [if_pos rfl]
      have hwvWS : ∀ c ∈ q :: v ++ [q], pyWS c = false := by
        intro c hc
        rcases List.mem_cons.mp hc with rfl | hc
        · exact hqWS
        · rcases List.mem_append.mp hc with h | h
          · exact hvWS c h
          · rw [List.mem_singleton.mp h]
            exact hqWS
      refine parseEnvLine_core k _ v sep ue hk hkp hwvWS hsep ?_ ?_
      · intro _ hmem
        rcases List.mem_cons.mp hmem with hEq | hmem
        · rcases hq with rfl | rfl <;> exact absurd hEq.symm (by decide)
        · rcases List.mem_append.mp hmem with h | h
          · exact (plainChar_spec (hvp _ h)).2.2.1 rfl
          · rcases hq with rfl | rfl <;> exact absurd (List.mem_singleton.mp h) (by decide)
      · rw [pyStrip_eq_self_of_forall _ hwvWS, stripQuotes_wrap q v hq]
    | false =>
      rw [if_neg (by decide)]
      refine parseEnvLine_core k v v sep ue hk hkp hvWS hsep ?_ ?_
      · intro _ hmem
        exact (plainChar_spec (hvp _ hmem)).2.2.1 rfl
      · rw [pyStrip_eq_self_of_forall _ hvWS, stripQuotes_of_plain v hvp]
  · intro k v w hk hkp hvp hwp
    obtain ⟨c0, k', rfl⟩ : ∃ c0 k', k = c0 :: k' := by
      cases k with
      | nil => exact absurd rfl hk
      | cons a t => exact ⟨a, t, rfl⟩
    have hc0 := plainChar_spec (hkp c0 (List.mem_cons_self _ _))
    have hall : ∀ c ∈ (c0 :: k') ++ ':' :: (v ++ '=' :: w), pyWS c = false := by
      intro c hc
      rcases List.mem_append.mp hc with h | h
      · exact (plainChar_spec (hkp c h)).1
      · rcases List.mem_cons.mp h with rfl | h
        · decide
        · rcases List.mem_append.mp h with h | h
          · exact (plainChar_spec (hvp c h)).1
          · rcases List.mem_cons.mp h with rfl | h
            · decide
            · exact (plainChar_spec (hwp c h)).1
    have hstrip1 : pyStrip ((c0 :: k') ++ ':' :: (v ++ '=' :: w))
        = (c0 :: k') ++ ':' :: (v ++ '=' :: w) := pyStrip_eq_self_of_forall _ hall
    have hassoc : (c0 :: k') ++ ':' :: (v ++ '=' :: w)
        = ((c0 :: k') ++ ':' :: v) ++ '=' :: w := by
      simp
    have h5 : splitOnce '=' ((c0 :: k') ++ ':' :: (v ++ '=' :: w))
        = some ((c0 :: k') ++ ':' :: v, w) := by
      rw [hassoc]
      refine splitOnce_append '=' _ w ?_
      intro hmem
      rcases List.mem_append.mp hmem with h | h
      · exact (plainChar_spec (hkp _ h)).2.2.1 rfl
      · rcases List.mem_cons.mp h with hEq | h
        · exact absurd hEq (by decide)
        · exact (plainChar_spec (hvp _ h)).2.2.1 rfl
    rw [parseEnvLine_eval _ _ _ _ '='
      (by rw [hstrip1]; simp)
      (by
        rw [hstrip1]
        simp only [List.cons_append, List.head?_cons, Option.some.injEq]
        exact fun hcon => hc0.2.1 hcon)
      (by rw [hstrip1, if_pos (by simp)])
      (by rw [hstrip1, removeExport_of_no_space _
            (fun c hc => pyWS_ne_space (hall c hc)), pyStrip_eq_self_of_forall _ hall])
      h5]
    rw [pyStrip_eq_self_of_forall _ (by
      intro c hc
      rcases List.mem_append.mp hc with h | h
      · exact (plainChar_spec (hkp c h)).1
      · rcases List.mem_cons.mp h with rfl | h
        · decide
        · exact (plainChar_spec (hvp c h)).1)]
    rw [pyStrip_eq_self_of_forall _ (fun c hc => (plainChar_spec (hwp c hc)).1)]
    rw [stripQuotes_of_plain w hwp]

/-- C6, witness: the amended combination statement applied to the
concrete line `export KEY:'value'`. -/
theorem C6_amended_witness :
    parseEnvLine (expFlag true ++ (("KEY").data ++ ':' ::
      (sq :: ("value").data ++ [sq]))) = some (("KEY").data, ("value").data) := by
  have h := C6_amended.2.2.1 ("KEY").data ("value").data ':' sq true true
    (by decide) (by decide) (by decide) (Or.inr rfl) (Or.inr rfl)
  simpa using h

/-- C5, counterexample.  The claim says an unparseable timestamp
yields `"N/A"`; the source's bare `except:` instead returns
`str(timestamp)`: at `10^12` (far beyond year 9999,
`datetime.fromtimestamp` raises) the formatter returns the digit
string, not the placeholder. -/
theorem C5_counterexample :
    ¬ tsParseable 1000000000000
    ∧ format_timestamp (some 1000000000000) = "1000000000000"
    ∧ format_timestamp (some 1000000000000) ≠ "N/A" := by
  refine ⟨by decide, by decide, by decide⟩

/-- C5, amended.  The formatter yields `"N/A"` for `0` and `None`;
every positive timestamp `datetime.fromtimestamp` accepts is rendered
in the shape `YYYY-MM-DD HH:MM:SS UTC`; an unparseable timestamp
is returned as `str(timestamp)` rather than `"N/A"`. -/
theorem C5_amended :
    (∀ t : Option Int, t = none ∨ t = some 0 → format_timestamp t = "N/A")
  ∧ (∀ ts : Int, 0 < ts → tsParseable ts →
      matchesTsPattern (format_timestamp (some ts)) = true)
  ∧ (∀ ts : Int, ts ≠ 0 → ¬ tsParseable ts →
      format_timestamp (some ts) = toString ts) := by
  refine ⟨?_, ?_, ?_⟩
  · rintro t (rfl | rfl) <;> rfl
  · intro ts hpos hp
    show matchesTsPattern (format_timestamp_int ts) = true
    unfold format_timestamp_int
    rw [if_neg (by omega), if_pos hp]
    simp only [matchesTsPattern, pad4, pad2, List.cons_append, List.nil_append]
    simp [digitChar10_isDigit]
  · intro ts h0 hp
    show format_timestamp_int ts = toString ts
    unfold format_timestamp_int
    rw [if_neg h0, if_neg hp]

/-- C5, witness: the amended pattern statement at timestamp
`1700000000` (rendered `2023-11-14 22:13:20 UTC`). -/
theorem C5_amended_witness :
    matchesTsPattern (format_timestamp (some 1700000000)) = true :=
  C5_amended.2.1 1700000000 (by norm_num) (by decide)

/-- C9.  For every identifier, valid base64 secret and generation
time, the token's claims carry `kid` equal to the identifier and an
`exp` within `[299, 301]` seconds of the generation time (the source
sets `exp = int(now + 5 minutes)`, which lands in `(299, 300]`). -/
theorem C9_token_claims (kid secret : String) (now : ℚ)
    (h : b64decodeOk secret = true) :
    ∃ p : JwtPayload, generate_jwt_token kid secret now = Except.ok p
      ∧ p.kid = kid
      ∧ (299 : ℚ) ≤ (p.exp : ℚ) - now ∧ ((p.exp : ℚ) - now) ≤ 301 := by
  refine ⟨⟨kid, ⌊now + 5 * 60⌋⟩, ?_, rfl, ?_, ?_⟩
  · unfold generate_jwt_token
    rw [if_pos h]
  · show (299 : ℚ) ≤ ((⌊now + 5 * 60⌋ : Int) : ℚ) - now
    have h2 := Int.lt_floor_add_one (now + 5 * 60)
    have h3 : ((5 : ℚ) * 60) = 300 := by norm_num
    rw [h3] at h2 ⊢
    linarith
  · show ((⌊now + 5 * 60⌋ : Int) : ℚ) - now ≤ 301
    have h1 := Int.floor_le (now + 5 * 60)
    have h3 : ((5 : ℚ) * 60) = 300 := by norm_num
    rw [h3] at h1 ⊢
    linarith

/-- C9, witness: concrete identifier, a well-formed base64 secret and
a concrete generation time. -/
theorem C9_token_claims_witness :
    ∃ p : JwtPayload, generate_jwt_token "key1" "c2VjcmV0" 1000 = Except.ok p
      ∧ p.kid = "key1"
      ∧ (299 : ℚ) ≤ (p.exp : ℚ) - 1000 ∧ ((p.exp : ℚ) - 1000) ≤ 301 :=
  C9_token_claims "key1" "c2VjcmV0" 1000 (by decide)

/-- C3, code bug.  The claim (and the spec's invariant) says a missing
field never makes a formatter fail — in particular a contract-flagged
input with no `score` key still yields a complete report.  In the
source, `score = inp.get('score', 'N/A')` followed by
`if score and score < 4:` compares the truthy string `'N/A'` with the
int `4`, raising `TypeError`, so the report is aborted instead. -/
theorem C3_missing_score_raises :
    (print_transaction_details txMissingScore).2 = some scoreTypeError
    ∧ txMissingScore.inputs = [{ contract := true }] := by
  exact ⟨by decide, rfl⟩

/-- C7.  For a list of `n` inputs (resp. outputs) the detail formatter
renders exactly `min n 3` entry lines (the `[:3]` slice), and exactly
when `n > 3` appends one line reporting `n - 3` remaining entries;
an empty list renders nothing at all. -/
theorem C7_first_three_entries (es os : List IOEntry) :
    ((es.take 3).enum.map (fun p => entryLine (p.1 + 1) p.2)).length = min es.length 3
  ∧ ((os.take 3).enum.map (fun p => entryLine (p.1 + 1) p.2)).length = min os.length 3
  ∧ inputsSection es = (if es.isEmpty then [] else
      ("\n📥 Inputs (" ++ toString es.length ++ "):")
        :: ((es.take 3).enum.map (fun p => entryLine (p.1 + 1) p.2)
          ++ (if 3 < es.length then
                ["   ... e altri " ++ toString (es.length - 3) ++ " input"]
              else [])))
  ∧ outputsSection os = (if os.isEmpty then [] else
      ("\n📤 Outputs (" ++ toString os.length ++ "):")
        :: ((os.take 3).enum.map (fun p => entryLine (p.1 + 1) p.2)
          ++ (if 3 < os.length then
                ["   ... e altri " ++ toString (os.length - 3) ++ " output"]
              else []))) := by
  refine ⟨?_, ?_, rfl, rfl⟩ <;>
    simp [List.length_take, Nat.min_comm]

/-- The contract-analysis loop, characterized: under the proviso that
every contract-flagged entry carries a score, the scan returns the
warning lines of exactly the `suspiciousEntry` entries, in order, and
reports whether any was found. -/
theorem scanContracts_eq (tag : String) (es : List IOEntry) (found : Bool)
    (h : ∀ e ∈ es, e.contract = true → e.score ≠ none) :
    scanContracts tag es found =
      (((es.filter suspiciousEntry).flatMap (warnLines tag),
        found || es.any suspiciousEntry), none) := by
  induction es generalizing found with
  | nil => simp [scanContracts]
  | cons e rest ih =>
    have hrest : ∀ x ∈ rest, x.contract = true → x.score ≠ none :=
      fun x hx => h x (List.mem_cons_of_mem _ hx)
    by_cases hc : e.contract = true
    · obtain ⟨s, hs⟩ : ∃ s, e.score = some s := by
        cases hsc : e.score with
        | none => exact absurd hsc (h e (List.mem_cons_self _ _) hc)
        | some s => exact ⟨s, rfl⟩
      by_cases hlt : s ≠ 0 ∧ s < 4
      · have heq : scanContracts tag (e :: rest) found =
            ((contractWarn1 tag e :: contractWarn2 e ::
              ((rest.filter suspiciousEntry).flatMap (warnLines tag)),
              true || rest.any suspiciousEntry), none) := by
          simp only [scanContracts, hs]
          rw [if_pos hc, if_pos hlt, ih true hrest]
        have hsusp : suspiciousEntry e = true := by
          simp [suspiciousEntry, hc, hs, hlt]
        rw [heq]
        simp [List.filter_cons, hsusp, warnLines]
      · have heq : scanContracts tag (e :: rest) found = scanContracts tag rest found := by
          simp only [scanContracts, hs]
          rw [if_pos hc, if_neg hlt]
        have hsusp : suspiciousEntry e = false := by
          simp [suspiciousEntry, hs, hlt]
        rw [heq, ih found hrest]
        simp [List.filter_cons, hsusp]
    · have heq : scanContracts tag (e :: rest) found = scanContracts tag rest found := by
        simp only [scanContracts]
        rw [if_neg hc]
      have hsusp : suspiciousEntry e = false := by
        simp [suspiciousEntry, hc]
      rw [heq, ih found hrest]
      simp [List.filter_cons, hsusp]

/-- C2, counterexample.  The claim says a contract-flagged entry with
score `0` (a defined numeric value `< 4`) gets a warning line and thus
no confirmation line.  In the source `if score and score < 4:` tests
truthiness first, so score `0` is never flagged: the analysis prints
no warning and emits the confirmation line. -/
theorem C2_counterexample :
    contractSection { inputs := [entryScoreZero] } =
      (["\n⚠️  ANALISI CONTRACT:", "   ✅ Nessun contract sospetto rilevato"], none)
    ∧ entryScoreZero.contract = true ∧ entryScoreZero.score = some 0
    ∧ contractWarn1 "Input" entryScoreZero ∉ (contractSection { inputs := [entryScoreZero] }).1 := by
  exact ⟨by decide, rfl, rfl, by decide⟩

/-- C2, amended.  The analysis scans all inputs and outputs (not just
the first 3).  Provided every contract-flagged entry has a defined
score (otherwise the comparison `'N/A' < 4` raises `TypeError`), it
prints the warning lines for exactly the entries whose contract flag
is set and whose score is a defined, *non-zero* numeric value strictly
less than 4 — a score of 0 is never flagged — and prints the single
confirmation line exactly when no such entry exists. -/
theorem C2_amended (d : TxData)
    (h : ∀ e ∈ d.inputs ++ d.outputs, e.contract = true → e.score ≠ none) :
    contractSection d =
      ("\n⚠️  ANALISI CONTRACT:"
        :: ((d.inputs.filter suspiciousEntry).flatMap (warnLines "Input")
          ++ (d.outputs.filter suspiciousEntry).flatMap (warnLines "Output")
          ++ (if (d.inputs ++ d.outputs).any suspiciousEntry then []
              else ["   ✅ Nessun contract sospetto rilevato"])), none) := by
  have hi : ∀ e ∈ d.inputs, e.contract = true → e.score ≠ none :=
    fun e he => h e (List.mem_append_left _ he)
  have ho : ∀ e ∈ d.outputs, e.contract = true → e.score ≠ none :=
    fun e he => h e (List.mem_append_right _ he)
  unfold contractSection
  rw [scanContracts_eq "Input" d.inputs false hi]
  dsimp only
  rw [scanContracts_eq "Output" d.outputs _ ho]
  dsimp only
  simp [List.any_append]

/-- C2, witness: the amended statement on a transaction with one
suspicious input (score 2) and one clean contract output (score 9). -/
theorem C2_amended_witness :
    contractSection c2WitnessTx =
      ("\n⚠️  ANALISI CONTRACT:"
        :: ((c2WitnessTx.inputs.filter suspiciousEntry).flatMap (warnLines "Input")
          ++ (c2WitnessTx.outputs.filter suspiciousEntry).flatMap (warnLines "Output")
          ++ (if (c2WitnessTx.inputs ++ c2WitnessTx.outputs).any suspiciousEntry then []
              else ["   ✅ Nessun contract sospetto rilevato"])), none) :=
  C2_amended c2WitnessTx (by decide)

/-- C1, counterexample.  The claim says that on a non-200 response the
process terminates with a non-zero exit code in hash mode too.  On an
HTTP 404 with a JSON error body, `make_api_request` prints the body
and calls `sys.exit(1)`, but `check_transaction_by_hash` catches the
`SystemExit` with `except SystemExit: pass`, so the invocation
completes normally and the process exits 0 (the body is printed and no
report is rendered, as claimed). -/
theorem C1_counterexample :
    (check_transaction_by_hash "btc" "abcd" resp404).outcome = Outcome.completed
    ∧ (check_transaction_by_hash "btc" "abcd" resp404).lines
        = introHash "btc" "abcd" ++ ["❌ Errore HTTP 404: \x7berror: Not found\x7d"] := by
  exact ⟨by decide, by decide⟩

/-- C1, amended.  On every non-200 response, at every call site, the
program prints the parsed JSON error body (falling back to the raw
text) and renders no report.  In address mode the process then
terminates with exit code 1 — after issuing only the stats request
when the stats call fails, and after issuing both requests when the
stats call succeeds and the transactions call fails — while in hash
mode the `SystemExit` is swallowed inside `check_transaction_by_hash`
and the invocation completes normally (process exit code 0). -/
theorem C1_amended :
    (∀ (c th : String) (rH : HttpResponse TxResponse),
      rH.status_code ≠ 200 →
      check_transaction_by_hash c th rH =
        ⟨introHash c th ++ [httpErrorLine rH.status_code rH.jsonErrRepr rH.text],
          Outcome.completed⟩)
  ∧ (∀ (c a : String) (rS : HttpResponse StatsResponse) (rT : HttpResponse TxListResponse),
      rS.status_code ≠ 200 →
      check_transaction_by_address c a rS rT =
        ⟨[statsRequest c a],
          introAddr c a ++ [httpErrorLine rS.status_code rS.jsonErrRepr rS.text],
          Outcome.exited 1⟩)
  ∧ (∀ (c a : String) (rS : HttpResponse StatsResponse) (sres : StatsResponse)
        (bl : List String) (rT : HttpResponse TxListResponse),
      rS.status_code = 200 → rS.json = some sres → statsStep sres = (bl, none) →
      rT.status_code ≠ 200 →
      check_transaction_by_address c a rS rT =
        ⟨[statsRequest c a, txRequest c a],
          introAddr c a ++ bl ++ txBanner
            ++ [httpErrorLine rT.status_code rT.jsonErrRepr rT.text],
          Outcome.exited 1⟩) := by
  refine ⟨?_, ?_, ?_⟩
  · intro c th rH hH
    have h1 : make_api_request rH
        = ([httpErrorLine rH.status_code rH.jsonErrRepr rH.text], Except.error 1) := by
      unfold make_api_request
      rw [if_pos hH]
    unfold check_transaction_by_hash
    rw [h1]
  · intro c a rS rT hS
    have h2 : make_api_request rS
        = ([httpErrorLine rS.status_code rS.jsonErrRepr rS.text], Except.error 1) := by
      unfold make_api_request
      rw [if_pos hS]
    unfold check_transaction_by_address
    rw [h2]
  · intro c a rS sres bl rT h200 hjson hstats hT
    have hreq1 : make_api_request rS = ([], Except.ok sres) := by
      unfold make_api_request
      rw [if_neg (not_not_intro h200), hjson]
    have hreq2 : make_api_request rT
        = ([httpErrorLine rT.status_code rT.jsonErrRepr rT.text], Except.error 1) := by
      unfold make_api_request
      rw [if_pos hT]
    unfold check_transaction_by_address
    rw [hreq1]
    dsimp only
    rw [hstats]
    dsimp only
    rw [hreq2]
    dsimp only
    simp

/-- C1, witness: the amended statement at concrete 404 responses on
both address-mode call sites (stats failing; stats succeeding with
falsy status and the transactions POST failing). -/
theorem C1_amended_witness :
    check_transaction_by_address "btc" "a1" statsResp404 txRespEmpty =
      ⟨[statsRequest "btc" "a1"],
        introAddr "btc" "a1"
          ++ [httpErrorLine statsResp404.status_code statsResp404.jsonErrRepr
              statsResp404.text],
        Outcome.exited 1⟩
    ∧ check_transaction_by_address "btc" "a1" statsRespStatusFalse txListResp404 =
      ⟨[statsRequest "btc" "a1", txRequest "btc" "a1"],
        introAddr "btc" "a1" ++ [] ++ txBanner
          ++ [httpErrorLine txListResp404.status_code txListResp404.jsonErrRepr
              txListResp404.text],
        Outcome.exited 1⟩ :=
  ⟨C1_amended.2.1 "btc" "a1" statsResp404 txRespEmpty (by decide),
   C1_amended.2.2 "btc" "a1" statsRespStatusFalse { status := false } [] txListResp404
     rfl rfl (by decide) (by decide)⟩

/-- C4, counterexample.  The claim says unexpected orchestration
errors are caught at the top of the relevant lookup function in both
modes.  `check_transaction_by_address` has no `try/except`: when the
stats payload carries `"balance": null`, `print_address_stats` raises
`AttributeError`, which propagates out of the lookup function (the
transactions call is never made), aborting the process. -/
theorem C4_counterexample :
    (check_transaction_by_address "btc" "addr1" statsRespNullBalance txRespEmpty).outcome
      = Outcome.raised noneGetError
    ∧ (check_transaction_by_address "btc" "addr1" statsRespNullBalance txRespEmpty).requests
      = [statsRequest "btc" "addr1"] := by
  exact ⟨by decide, by decide⟩

/-- C4, amended.  In hash mode an unexpected error during orchestration
is caught at the top of `check_transaction_by_hash`, printed as
`❌ Errore imprevisto`, and does not propagate, so the invocation
completes; `check_transaction_by_address` has no such handler, and an
unexpected error raised while rendering the stats propagates out of
the lookup function, aborting the invocation before the transactions
call. -/
theorem C4_amended :
    (∀ (c th : String) (resp : HttpResponse TxResponse) (res : TxResponse) (d : TxData)
        (dl : List String) (e : PyErr),
        resp.status_code = 200 → resp.json = some res → res.status = true →
        res.data = some d → print_transaction_details d = (dl, some e) →
        check_transaction_by_hash c th resp =
          ⟨introHash c th ++ dl ++ ["❌ Errore imprevisto: " ++ pyErrMsg e],
            Outcome.completed⟩)
  ∧ (∀ (c a : String) (sR : HttpResponse StatsResponse) (sres : StatsResponse)
        (bl : List String) (e : PyErr) (tR : HttpResponse TxListResponse),
        sR.status_code = 200 → sR.json = some sres →
        statsStep sres = (bl, some e) →
        check_transaction_by_address c a sR tR =
          ⟨[statsRequest c a], introAddr c a ++ bl, Outcome.raised e⟩) := by
  constructor
  · intro c th resp res d dl e h200 hjson hst hdata hpr
    have hreq : make_api_request resp = ([], Except.ok res) := by
      unfold make_api_request
      rw [if_neg (not_not_intro h200), hjson]
    unfold check_transaction_by_hash
    rw [hreq]
    dsimp only
    rw [if_pos hst, hdata]
    dsimp only
    rw [hpr]
    dsimp only
    have : introHash c th ++ [] ++ dl = introHash c th ++ dl := by simp
    rw [this]
  · intro c a sR sres bl e tR h200 hjson hstats
    have hreq : make_api_request sR = ([], Except.ok sres) := by
      unfold make_api_request
      rw [if_neg (not_not_intro h200), hjson]
    unfold check_transaction_by_address
    rw [hreq]
    dsimp only
    rw [hstats]
    dsimp only
    have : introAddr c a ++ [] ++ bl = introAddr c a ++ bl := by simp
    rw [this]

/-- C4, witness: both amended halves at concrete inputs — the
missing-score transaction in hash mode, the null-balance stats payload
in address mode. -/
theorem C4_amended_witness :
    check_transaction_by_address "btc" "a1" statsRespNullBalance txRespEmpty =
      ⟨[statsRequest "btc" "a1"],
        introAddr "btc" "a1"
          ++ (statsStep { status := true, data := some { balance := JField.null } }).1,
        Outcome.raised noneGetError⟩
    ∧ check_transaction_by_hash "btc" "h1" hashRespCrash =
      ⟨introHash "btc" "h1" ++ (print_transaction_details txMissingScore).1
          ++ ["❌ Errore imprevisto: " ++ pyErrMsg scoreTypeError],
        Outcome.completed⟩ :=
  ⟨C4_amended.2 "btc" "a1" statsRespNullBalance
      { status := true, data := some { balance := JField.null } }
      (statsStep { status := true, data := some { balance := JField.null } }).1
      noneGetError txRespEmpty rfl rfl (by decide),
   C4_amended.1 "btc" "h1" hashRespCrash
      { status := true, data := some txMissingScore } txMissingScore
      (print_transaction_details txMissingScore).1 scoreTypeError
      rfl rfl rfl rfl (by decide)⟩

/-- C8.  In address mode, when the stats call returns 200 (and its
rendering raises nothing) and the transactions call returns 200, the
program performs exactly two calls in strict order — first
`GET /v2/{currency}/address/stats/{address}`, then
`POST /v2/{currency}/address/transactions/{address}` with body
`{page: 1, sort_by: "time", sort_order: "desc"}` — and on a
status-true transactions response renders at most the first 5
transactions, preceded by the total entry count taken from the
response's pagination metadata. -/
theorem C8_address_flow (c a : String) (sR : HttpResponse StatsResponse)
    (tR : HttpResponse TxListResponse) (sres : StatsResponse) (tres : TxListResponse)
    (bl : List String)
    (h1 : sR.status_code = 200) (h2 : sR.json = some sres)
    (h3 : statsStep sres = (bl, none))
    (h4 : tR.status_code = 200) (h5 : tR.json = some tres) :
    (check_transaction_by_address c a sR tR).requests =
      [⟨"GET", "/v2/" ++ c ++ "/address/stats/" ++ a, none⟩,
       ⟨"POST", "/v2/" ++ c ++ "/address/transactions/" ++ a, some ⟨1, "time", "desc"⟩⟩]
  ∧ (check_transaction_by_address c a sR tR).outcome = Outcome.completed
  ∧ (tres.status = true →
      (check_transaction_by_address c a sR tR).lines
        = introAddr c a ++ bl ++ txBanner
          ++ ("Totale transazioni: "
              ++ toString ((tres.pagination.getD {}).total_entries.getD 0) ++ "\n")
            :: (tres.data.take 5).enum.flatMap (fun p =>
                ("--- Transazione " ++ toString (p.1 + 1) ++ " ---")
                  :: print_transaction_summary p.2 ++ [""])
      ∧ (tres.data.take 5).length = min tres.data.length 5) := by
  have hreq1 : make_api_request sR = ([], Except.ok sres) := by
    unfold make_api_request
    rw [if_neg (not_not_intro h1), h2]
  have hreq2 : make_api_request tR = ([], Except.ok tres) := by
    unfold make_api_request
    rw [if_neg (not_not_intro h4), h5]
  unfold check_transaction_by_address
  rw [hreq1]
  dsimp only
  rw [h3]
  dsimp only
  rw [hreq2]
  dsimp only
  refine ⟨rfl, rfl, fun hst => ⟨?_, ?_⟩⟩
  · rw [if_pos hst]
    simp [txSection, statsRequest, txRequest]
  · simp [List.length_take, Nat.min_comm]

/-- C8, witness: the spec's scenario — stats 200 with falsy status,
transactions 200 with 7 entries and `total_entries` 42. -/
theorem C8_address_flow_witness :
    (check_transaction_by_address "btc" "addr9" statsRespStatusFalse txResp7).requests =
      [⟨"GET", "/v2/" ++ "btc" ++ "/address/stats/" ++ "addr9", none⟩,
       ⟨"POST", "/v2/" ++ "btc" ++ "/address/transactions/" ++ "addr9",
         some ⟨1, "time", "desc"⟩⟩] :=
  (C8_address_flow "btc" "addr9" statsRespStatusFalse txResp7
    { status := false } _ [] rfl rfl (by decide) rfl rfl).1

/-- C10.  When the stats response is HTTP 200 but its `status` field
is falsy, no stats block and no stats error message is printed (there
is no `else` branch), yet the transactions POST is still issued and
its result rendered, and the invocation completes normally (process
exit code 0). -/
theorem C10_stats_status_false (c a : String) (sR : HttpResponse StatsResponse)
    (tR : HttpResponse TxListResponse) (sres : StatsResponse) (tres : TxListResponse)
    (h1 : sR.status_code = 200) (h2 : sR.json = some sres) (h3 : sres.status = false)
    (h4 : tR.status_code = 200) (h5 : tR.json = some tres) :
    (check_transaction_by_address c a sR tR).requests = [statsRequest c a, txRequest c a]
  ∧ (check_transaction_by_address c a sR tR).outcome = Outcome.completed
  ∧ (check_transaction_by_address c a sR tR).lines
      = introAddr c a ++ txBanner
        ++ (if tres.status then txSection tres else ["❌ Nessuna transazione trovata"]) := by
  have hstats : statsStep sres = ([], none) := by
    simp [statsStep, h3]
  have hreq1 : make_api_request sR = ([], Except.ok sres) := by
    unfold make_api_request
    rw [if_neg (not_not_intro h1), h2]
  have hreq2 : make_api_request tR = ([], Except.ok tres) := by
    unfold make_api_request
    rw [if_neg (not_not_intro h4), h5]
  unfold check_transaction_by_address
  rw [hreq1]
  dsimp only
  rw [hstats]
  dsimp only
  rw [hreq2]
  dsimp only
  refine ⟨rfl, rfl, ?_⟩
  simp

/-- C10, witness: concrete falsy-status stats response with a 200
transactions response. -/
theorem C10_stats_status_false_witness :
    (check_transaction_by_address "btc" "addr9" statsRespStatusFalse txResp7).outcome
      = Outcome.completed :=
  (C10_stats_status_false "btc" "addr9" statsRespStatusFalse txResp7
    { status := false } _ rfl rfl rfl rfl rfl).2.1

end Caudena
